import Mathlib

/-!
Shallow embedding of `youtube_downloader.py`, a small Tk GUI program that
downloads a YouTube video via the yt-dlp library, with a format-selection
policy depending on whether an FFmpeg muxer is found on disk.

Pure helpers (`is_youtube_url`, `find_ffmpeg_folder`, `make_ydl_opts`,
`progress_hook`) are embedded as Lean functions over explicit environments
(the filesystem is a `String → Bool` existence oracle, Python floats are
modelled as exact rationals ℚ, dictionaries with optional keys as structures
of `Option` fields).  The Tk UI and the background worker are embedded as an
explicit effect trace / state-transition system.
-/

namespace YtDl

/-! ### Python string helpers (lower, strip, substring) -/

/-- Embedding of Python `str.lower()` (character-wise lowering). -/
def pyLower (s : String) : String := ⟨s.data.map Char.toLower⟩

/-- Embedding of Python `str.strip()`: drop leading and trailing whitespace. -/
def pyStrip (s : String) : String :=
  ⟨((s.data.dropWhile Char.isWhitespace).reverse.dropWhile Char.isWhitespace).reverse⟩

/-- Does `hay` start with `needle`?  Structural helper for the substring test. -/
def startsWithCL : List Char → List Char → Bool
  | [], _ => true
  | _ :: _, [] => false
  | a :: as, b :: bs => a == b && startsWithCL as bs

/-- Embedding of Python `needle in hay` on strings: contiguous substring test. -/
def containsCL (needle : List Char) : List Char → Bool
  | [] => needle.isEmpty
  | h :: t => startsWithCL needle (h :: t) || containsCL needle t

theorem startsWithCL_iff (n h : List Char) :
    startsWithCL n h = true ↔ ∃ t, h = n ++ t := by
  induction n generalizing h with
  | nil => simp [startsWithCL]
  | cons a as ih =>
    cases h with
    | nil => simp [startsWithCL]
    | cons b bs =>
      simp only [startsWithCL, Bool.and_eq_true, beq_iff_eq, ih, List.cons_append]
      constructor
      · rintro ⟨rfl, t, rfl⟩; exact ⟨t, rfl⟩
      · rintro ⟨t, heq⟩
        obtain ⟨rfl, rfl⟩ := by
          simpa using heq
        exact ⟨rfl, t, rfl⟩

theorem containsCL_iff (n h : List Char) :
    containsCL n h = true ↔ ∃ p q, h = p ++ n ++ q := by
  induction h with
  | nil =>
    simp only [containsCL, List.isEmpty_iff]
    constructor
    · rintro rfl; exact ⟨[], [], rfl⟩
    · rintro ⟨p, q, heq⟩
      rcases List.append_eq_nil.mp (List.append_eq_nil.mp heq.symm).1 with ⟨_, hn⟩
      exact hn
  | cons b bs ih =>
    simp only [containsCL, Bool.or_eq_true, startsWithCL_iff, ih]
    constructor
    · rintro (⟨t, heq⟩ | ⟨p, q, heq⟩)
      · exact ⟨[], t, by simp [heq]⟩
      · exact ⟨b :: p, q, by simp [heq]⟩
    · rintro ⟨p, q, heq⟩
      cases p with
      | nil => exact Or.inl ⟨q, by simpa using heq⟩
      | cons x xs =>
        right
        obtain ⟨rfl, h2⟩ : b = x ∧ bs = xs ++ n ++ q := by simpa using heq
        exact ⟨xs, q, h2⟩

/-! ### `is_youtube_url` (source lines 15–17) -/

/-- Embedding of `is_youtube_url`: lowercase the url, then test for the
substrings `"youtube.com"` and `"youtu.be"`.  (The Python `url or ""` guard
only handles `None`, which does not arise for a Lean `String`.) -/
def is_youtube_url (url : String) : Bool :=
  let u := pyLower url
  containsCL "youtube.com".data u.data || containsCL "youtu.be".data u.data

/-! ### `find_ffmpeg_folder` (source lines 33–59)

The filesystem is an explicit existence oracle `pathExists : String → Bool`;
`sys._MEIPASS` (PyInstaller one-file extraction directory) is an
`Option String`; `app_base_dir()` is an opaque-to-the-probe `String`. -/

/-- Process environment seen by the probe: the optional PyInstaller
extraction directory, the script/exe base directory, and the filesystem
existence oracle (embedding `Path.exists`). -/
structure SysEnv where
  meipass : Option String
  base : String
  pathExists : String → Bool

/-- Embedding of `pathlib`'s `/` operator (path join). -/
def joinP (a b : String) : String := a ++ "/" ++ b

/-- Does candidate directory `c` contain both `ffmpeg.exe` and `ffprobe.exe`?
(the loop body test of `find_ffmpeg_folder`). -/
def hasBothTools (pe : String → Bool) (c : String) : Bool :=
  pe (joinP c "ffmpeg.exe") && pe (joinP c "ffprobe.exe")

/-- Candidate list of `find_ffmpeg_folder`, in source order:
`sys._MEIPASS` (if set), then the base dir, then its `ffmpeg` subfolder. -/
def ffmpeg_candidates (env : SysEnv) : List String :=
  (match env.meipass with
   | some m => [m]
   | none => []) ++ [env.base, joinP env.base "ffmpeg"]

/-- Embedding of `find_ffmpeg_folder`: first candidate containing both
tool files, else `none`. -/
def find_ffmpeg_folder (env : SysEnv) : Option String :=
  (ffmpeg_candidates env).find? (hasBothTools env.pathExists)

/-! ### `make_ydl_opts` (source lines 62–136) -/

/-- The yt-dlp options dictionary built by `make_ydl_opts`, with the two
conditionally-present keys as `Option` fields (`none` = key absent). -/
structure YdlOpts where
  format : String
  outtmpl : String
  noplaylist : Bool
  quiet : Bool
  no_warnings : Bool
  retries : Nat
  fragment_retries : Nat
  ffmpeg_location : Option String
  merge_output_format : Option String
deriving Repr, DecidableEq

/-- Format expression of the FFmpeg branch (source line 110). -/
def fmt_with_ffmpeg : String := "bv*[ext=mp4]+ba[ext=m4a]/bv*+ba/best"

/-- Format expression of the no-FFmpeg branch (source line 115). -/
def fmt_no_ffmpeg : String :=
  "best[vcodec!=none][acodec!=none][ext=mp4]/best[vcodec!=none][acodec!=none]/best"

/-- Note emitted on the FFmpeg branch (source line 111). -/
def note_with_ffmpeg : String :=
  "FFmpeg detected: Highest quality (video+audio merge) enabled."

/-- Note emitted on the no-FFmpeg branch (source line 116). -/
def note_no_ffmpeg : String :=
  "FFmpeg not detected: using single-file format (sound guaranteed, may be <=720p)."

/-- Embedding of `make_ydl_opts`: returns the options dictionary together
with the list of `ui_note` messages emitted during construction.  The
`url` argument is kept for fidelity (the source accepts it but only uses
`out_dir`, in the output template). -/
def make_ydl_opts (url out_dir : String) (env : SysEnv) : YdlOpts × List String :=
  let _ := url
  let ffmpeg_loc := find_ffmpeg_folder env
  let fmt := match ffmpeg_loc with
    | some _ => fmt_with_ffmpeg
    | none => fmt_no_ffmpeg
  let notes := match ffmpeg_loc with
    | some _ => [note_with_ffmpeg]
    | none => [note_no_ffmpeg]
  ({ format := fmt
     outtmpl := joinP out_dir "%(title)s [%(id)s].%(ext)s"
     noplaylist := true
     quiet := true
     no_warnings := true
     retries := 3
     fragment_retries := 3
     ffmpeg_location := ffmpeg_loc
     merge_output_format := match ffmpeg_loc with
       | some _ => some "mp4"
       | none => none }, notes)

/-! ### yt-dlp format-selector semantics

Modelled from the spec: the format mini-language belongs to the external
yt-dlp library (out of scope of the repository, consumed as a black box),
so its documented meaning is embedded here only as far as the spec's
format-policy property needs: `/` separates fallback alternatives, `+`
merges the streams of one alternative, `[...]` attaches filters to a
selector, the selector `best`/`b` denotes the best single stream that
contains both video and audio, `bv`/`bv*`/`bestvideo` denote (possibly
video-only) video streams, `ba`/`ba*`/`bestaudio` denote audio streams,
and the filters `[vcodec!=none]`/`[acodec!=none]` require a video/audio
track to be present. -/

/-- Split a character list at every occurrence of `sep`. -/
def splitOnC (sep : Char) : List Char → List (List Char)
  | [] => [[]]
  | c :: rest =>
    let r := splitOnC sep rest
    if c == sep then [] :: r
    else
      match r with
      | [] => [[c]]
      | h :: t => (c :: h) :: t

/-- Base token of a selector: the characters before its first filter. -/
def selBase (s : List Char) : List Char := s.takeWhile (fun c => c ≠ '[')

/-- Filter strings of a selector: the contents of its square brackets. -/
def selFilters (s : List Char) : List (List Char) :=
  ((splitOnC '[' s).drop 1).map (fun t => t.takeWhile (fun c => c ≠ ']'))

/-- Selector bases that denote an audio stream. -/
def audioBase (b : List Char) : Bool :=
  b == "ba".data || b == "ba*".data || b == "bestaudio".data || b == "bestaudio*".data

/-- Selector bases that denote a (possibly video-only) video stream. -/
def videoBase (b : List Char) : Bool :=
  b == "bv".data || b == "bv*".data || b == "bestvideo".data || b == "bestvideo*".data

/-- Selector bases that denote the best single stream already containing
both video and audio (yt-dlp's `best`/`b`). -/
def combinedBase (b : List Char) : Bool :=
  b == "best".data || b == "b".data

/-- An alternative that selects a single stream guaranteed to carry both a
video and an audio track: either a combined-by-definition base, or filters
requiring both codecs to be present. -/
def requiresBothTracks (alt : List Char) : Bool :=
  combinedBase (selBase alt) ||
    ((selFilters alt).contains "vcodec!=none".data &&
     (selFilters alt).contains "acodec!=none".data)

/-- An alternative that requests separate streams merged together, among
them a video stream and an audio stream. -/
def isMergeOfVideoAndAudio (alt : List Char) : Bool :=
  let comps := splitOnC '+' alt
  decide (2 ≤ comps.length) &&
    comps.any (fun c => videoBase (selBase c)) &&
    comps.any (fun c => audioBase (selBase c))

/-- An alternative made of a single (unmerged) stream. -/
def isSingleStream (alt : List Char) : Bool :=
  (splitOnC '+' alt).length == 1

/-- An alternative whose selected result always carries an audio track
(never a silent video-only stream): either a merge including an audio
stream, or a single stream with both tracks guaranteed. -/
def altNeverVideoOnly (alt : List Char) : Bool :=
  isMergeOfVideoAndAudio alt || (isSingleStream alt && requiresBothTracks alt)

/-- The fallback alternatives of a format expression (split at `/`). -/
def fmtAlternatives (fmt : String) : List (List Char) :=
  splitOnC '/' fmt.data

/-! ### `progress_hook` (source lines 75–95)

The yt-dlp progress dictionary is embedded as a structure of optional
fields; Python floats are exact rationals.  Python's `x or y` returns `y`
when `x` is falsy (`None` or `0`). -/

/-- A yt-dlp progress event (the dictionary passed to the hook). -/
structure ProgressEvent where
  status : Option String
  total_bytes : Option ℚ
  total_bytes_estimate : Option ℚ
  downloaded_bytes : Option ℚ
  speed : Option ℚ
  eta : Option ℚ

/-- Embedding of Python `x or y` for an optional number `x`:
`y` when `x` is missing or zero. -/
def pyOr (x : Option ℚ) (y : ℚ) : ℚ :=
  match x with
  | some v => if v = 0 then y else v
  | none => y

/-- The `total` local of `progress_hook`:
`d.get("total_bytes") or d.get("total_bytes_estimate") or 0`. -/
def eventTotal (d : ProgressEvent) : ℚ :=
  pyOr d.total_bytes (pyOr d.total_bytes_estimate 0)

/-- The `downloaded` local of `progress_hook`: `d.get("downloaded_bytes") or 0`. -/
def eventDownloaded (d : ProgressEvent) : ℚ :=
  pyOr d.downloaded_bytes 0

/-- Embedding of `progress_hook`, projected onto the percent value it
relays: `some pct` is the first argument of the `ui_update` call the hook
makes, `none` means the hook makes no `ui_update` call. -/
def progress_hook (d : ProgressEvent) : Option ℚ :=
  if d.status = some "downloading" then
    let total := eventTotal d
    let downloaded := eventDownloaded d
    some (if total ≠ 0 then downloaded / total * 100 else 0)
  else if d.status = some "finished" then
    some 100
  else
    none

/-- Sample progress event of the spec's numeric scenario: downloading,
50 of 200 bytes. -/
def ev50of200 : ProgressEvent :=
  { status := some "downloading", total_bytes := some 200,
    total_bytes_estimate := none, downloaded_bytes := some 50,
    speed := none, eta := none }

/-- Sample progress event: downloading, 30 of 60 bytes. -/
def ev30of60 : ProgressEvent :=
  { status := some "downloading", total_bytes := some 60,
    total_bytes_estimate := none, downloaded_bytes := some 30,
    speed := none, eta := none }

/-- Sample progress event with a zero total and no estimate. -/
def evZeroTotal : ProgressEvent :=
  { status := some "downloading", total_bytes := some 0,
    total_bytes_estimate := none, downloaded_bytes := some 7,
    speed := none, eta := none }

/-! ### UI callbacks and the download worker (source lines 187–241) -/

/-- Observable state of the Tk window: the trigger button, the status and
note labels, the progress bar, and the history of modal error boxes shown
(`messagebox.showerror` title/message pairs). -/
structure UiState where
  btn_enabled : Bool
  status : String
  progress : ℚ
  note : String
  modals : List (String × String)
deriving Repr, DecidableEq

/-- Embedding of `App.ui_done`. -/
def ui_done (s : UiState) (msg : String) : UiState :=
  { s with progress := 100, status := msg, btn_enabled := true }

/-- Embedding of `App.ui_error`: re-enable the button, set the status to
`"Failed."`, and show a modal `"Download error"` box with the message. -/
def ui_error (s : UiState) (msg : String) : UiState :=
  { s with btn_enabled := true, status := "Failed.",
           modals := s.modals ++ [("Download error", msg)] }

/-- Result of the `try` body of `App._download_worker`: either the info
dictionary returned by `extract_info` (possibly `None`, possibly without a
title), or the stringified form of an exception raised anywhere inside the
body (during option building, extraction, download or merge). -/
inductive WorkerOutcome where
  | success (title : Option String)
  | failure (errMsg : String)

/-- Terminal UI call of the worker. -/
inductive UiCall where
  | done (msg : String)
  | error (msg : String)
deriving Repr, DecidableEq

/-- Embedding of `(info or {}).get("title", "Done")` where
`success title` carries `info["title"]` when present. -/
def workerTitle (title : Option String) : String :=
  title.getD "Done"

/-- Embedding of `App._download_worker` as a total function from the
outcome of its `try` body to its terminal UI call: the `except` clause
catches every exception, so the worker always ends in exactly one of
`ui_done`/`ui_error` and never re-raises. -/
def download_worker (o : WorkerOutcome) : UiCall :=
  match o with
  | .success title => .done ("Done: " ++ workerTitle title)
  | .failure e => .error e

/-- Effect of the worker's terminal call on the UI state. -/
def applyUiCall (s : UiState) : UiCall → UiState
  | .done m => ui_done s m
  | .error m => ui_error s m

/-! ### `App.start_download` (source lines 187–207)

The handler is embedded as the trace of effects it performs, in program
order. -/

/-- One observable effect of the `start_download` click handler. -/
inductive Eff where
  | showError (title msg : String)
  | mkdir (dir : String)
  | disableBtn
  | setProgress (pct : ℚ)
  | setStatus (msg : String)
  | setNote (msg : String)
  | spawnWorker (url out_dir : String)
deriving Repr, DecidableEq

/-- Embedding of `App.start_download`: strip both fields, validate, and on
success create the output directory (with `parents=True, exist_ok=True`),
reset the UI and spawn the single worker thread.  The returned list is the
ordered trace of effects. -/
def start_download (url_raw out_raw : String) : List Eff :=
  let url := pyStrip url_raw
  let out_dir := pyStrip out_raw
  if ¬ is_youtube_url url then
    [.showError "Invalid input" "Please paste a valid YouTube URL."]
  else if out_dir = "" then
    [.showError "Invalid input" "Please choose an output folder."]
  else
    [.mkdir out_dir, .disableBtn, .setProgress 0, .setStatus "Starting…",
     .setNote "", .spawnWorker url out_dir]

/-! ### Download state machine (spec section 4.3)

Reachable states of the app, abstracting the Tk event loop: `running`
counts live worker threads.  A disabled ttk button does not fire its
command, so the `click` step requires `btn_enabled = true`; `start_download`
disables the button in the same handler before `Thread.start()`, and only
`ui_done`/`ui_error` set it back to `"normal"`. -/

/-- Abstract machine state: the UI state plus the number of live workers. -/
structure SysState where
  ui : UiState
  running : Nat
deriving Repr, DecidableEq

/-- Initial state: button enabled, status `"Idle"`, no worker. -/
def initState : SysState :=
  { ui := { btn_enabled := true, status := "Idle", progress := 0, note := "",
            modals := [] },
    running := 0 }

/-- One step of the app.  `click` is a successful `start_download` (its
validation passed); `clickRejected` is a click whose validation failed
(modal error, nothing else); `progressUpd` is a `ui_update` relayed from
the running worker's hooks; `finishOk`/`finishErr` are the worker
terminating through `ui_done`/`ui_error`. -/
inductive Step : SysState → SysState → Prop where
  | click (s : SysState) (url out_dir : String) :
      s.ui.btn_enabled = true →
      is_youtube_url (pyStrip url) = true →
      pyStrip out_dir ≠ "" →
      Step s { ui := { s.ui with btn_enabled := false, progress := 0,
                                 status := "Starting…", note := "" },
               running := s.running + 1 }
  | clickRejected (s : SysState) (title msg : String) :
      s.ui.btn_enabled = true →
      Step s { s with ui := { s.ui with modals := s.ui.modals ++ [(title, msg)] } }
  | progressUpd (s : SysState) (pct : ℚ) (msg : String) :
      0 < s.running →
      Step s { s with ui := { s.ui with progress := pct, status := msg } }
  | noteUpd (s : SysState) (msg : String) :
      0 < s.running →
      Step s { s with ui := { s.ui with note := msg } }
  | finishOk (s : SysState) (msg : String) :
      0 < s.running →
      Step s { ui := ui_done s.ui msg, running := s.running - 1 }
  | finishErr (s : SysState) (e : String) :
      0 < s.running →
      Step s { ui := ui_error s.ui e, running := s.running - 1 }

/-- States reachable from `initState` by `Step`. -/
inductive Reachable : SysState → Prop where
  | init : Reachable initState
  | step {s s' : SysState} : Reachable s → Step s s' → Reachable s'

/-! ## Theorems -/

/-- C3: `is_youtube_url url` returns `true` if and only if the lowercased
`url` contains the substring `"youtube.com"` or the substring `"youtu.be"`;
every other string is rejected. -/
theorem is_youtube_url_spec (url : String) :
    is_youtube_url url = true ↔
      ((∃ p q, (pyLower url).data = p ++ "youtube.com".data ++ q) ∨
       (∃ p q, (pyLower url).data = p ++ "youtu.be".data ++ q)) := by
  simp [is_youtube_url, containsCL_iff]

/-- Witness for C3: a concrete accepted URL, through `is_youtube_url_spec`. -/
theorem is_youtube_url_spec_witness :
    is_youtube_url "https://YouTu.Be/abc123" = true :=
  (is_youtube_url_spec "https://YouTu.Be/abc123").mpr
    (Or.inr ⟨"https://".data, "/abc123".data, by decide⟩)

/-- C2: `find_ffmpeg_folder` returns the first directory, in the fixed
order (PyInstaller temp extraction dir if present, then the program's own
directory, then its `ffmpeg` subfolder), containing both `ffmpeg.exe` and
`ffprobe.exe`, and returns `none` when no candidate contains both. -/
theorem find_ffmpeg_folder_spec (env : SysEnv) :
    (find_ffmpeg_folder env =
      match env.meipass with
      | some m =>
          if hasBothTools env.pathExists m then some m
          else if hasBothTools env.pathExists env.base then some env.base
          else if hasBothTools env.pathExists (joinP env.base "ffmpeg") then
            some (joinP env.base "ffmpeg")
          else none
      | none =>
          if hasBothTools env.pathExists env.base then some env.base
          else if hasBothTools env.pathExists (joinP env.base "ffmpeg") then
            some (joinP env.base "ffmpeg")
          else none)
    ∧ (find_ffmpeg_folder env = none ↔
        ∀ c ∈ ffmpeg_candidates env, hasBothTools env.pathExists c = false) := by
  constructor
  · cases hm : env.meipass with
    | none =>
        cases h1 : hasBothTools env.pathExists env.base <;>
        cases h2 : hasBothTools env.pathExists (joinP env.base "ffmpeg") <;>
          simp [find_ffmpeg_folder, ffmpeg_candidates, hm, List.find?, h1, h2]
    | some m =>
        cases h0 : hasBothTools env.pathExists m <;>
        cases h1 : hasBothTools env.pathExists env.base <;>
        cases h2 : hasBothTools env.pathExists (joinP env.base "ffmpeg") <;>
          simp [find_ffmpeg_folder, ffmpeg_candidates, hm, List.find?, h0, h1, h2]
  · simp [find_ffmpeg_folder, List.find?_eq_none]

/-- Witness for C2: with only `base/ffmpeg` holding both tools, the probe
skips `meipass` and `base` and returns the subfolder. -/
theorem find_ffmpeg_folder_spec_witness :
    find_ffmpeg_folder
        ⟨some "M", "B", fun s => s == "B/ffmpeg/ffmpeg.exe" || s == "B/ffmpeg/ffprobe.exe"⟩
      = some "B/ffmpeg" := by
  have h := (find_ffmpeg_folder_spec
    ⟨some "M", "B", fun s => s == "B/ffmpeg/ffmpeg.exe" || s == "B/ffmpeg/ffprobe.exe"⟩).1
  rw [h]
  decide

/-- C10: the `"format"` entry built by `make_ydl_opts` is independent of
the `url` and `out_dir` inputs: under the same probe outcome any two calls
choose the identical format expression. -/
theorem format_input_independent (url₁ out₁ url₂ out₂ : String) (env : SysEnv) :
    (make_ydl_opts url₁ out₁ env).1.format = (make_ydl_opts url₂ out₂ env).1.format := by
  cases hf : find_ffmpeg_folder env <;> simp [make_ydl_opts, hf]

/-- C4: every exception in the worker body is caught: the worker maps an
exception with message `e` to the terminal `ui_error e` call (it is a total
function, so nothing propagates), that call re-enables the button, sets the
status to `"Failed."` and shows the modal `"Download error"` box, and every
outcome whatsoever leaves the button re-enabled. -/
theorem worker_catches_exceptions (s : UiState) (e : String) :
    download_worker (.failure e) = .error e
    ∧ applyUiCall s (download_worker (.failure e)) =
        { s with btn_enabled := true, status := "Failed.",
                 modals := s.modals ++ [("Download error", e)] }
    ∧ ∀ o : WorkerOutcome, (applyUiCall s (download_worker o)).btn_enabled = true := by
  refine ⟨rfl, rfl, ?_⟩
  rintro (t | m) <;> rfl

/-- Witness for C4: concrete failing worker run. -/
theorem worker_catches_exceptions_witness :
    applyUiCall { btn_enabled := false, status := "Starting…", progress := 0,
                  note := "", modals := [] }
        (download_worker (.failure "HTTP Error 403")) =
      { btn_enabled := true, status := "Failed.", progress := 0, note := "",
        modals := [("Download error", "HTTP Error 403")] } :=
  (worker_catches_exceptions
    { btn_enabled := false, status := "Starting…", progress := 0,
      note := "", modals := [] } "HTTP Error 403").2.1

/-- C1: under every probe outcome every alternative of the chosen format
expression avoids video-only selection; when the probe finds a muxer the
expression's preferred alternative merges separate best-video and
best-audio streams (with an mp4 merge target set); when the probe finds
nothing every alternative is a single stream required to carry both
tracks. -/
theorem format_never_video_only (url out_dir : String) (env : SysEnv) :
    (fmtAlternatives (make_ydl_opts url out_dir env).1.format).all altNeverVideoOnly = true
    ∧ ((find_ffmpeg_folder env).isSome = true →
        (fmtAlternatives (make_ydl_opts url out_dir env).1.format).head?.map
            isMergeOfVideoAndAudio = some true
        ∧ (make_ydl_opts url out_dir env).1.merge_output_format = some "mp4")
    ∧ (find_ffmpeg_folder env = none →
        (fmtAlternatives (make_ydl_opts url out_dir env).1.format).all
          (fun a => isSingleStream a && requiresBothTracks a) = true) := by
  cases hf : find_ffmpeg_folder env with
  | none =>
    refine ⟨?_, ?_, ?_⟩ <;> simp [make_ydl_opts, hf] <;> decide
  | some loc =>
    refine ⟨?_, ?_, ?_⟩ <;> simp [make_ydl_opts, hf] <;> decide

/-- Witness for C1: both probe outcomes realised concretely (a filesystem
carrying the tools in the base dir, and an empty one). -/
theorem format_never_video_only_witness :
    ((find_ffmpeg_folder ⟨none, "B", fun _ => true⟩).isSome = true
      ∧ (fmtAlternatives (make_ydl_opts "u" "d" ⟨none, "B", fun _ => true⟩).1.format).head?.map
            isMergeOfVideoAndAudio = some true
      ∧ (make_ydl_opts "u" "d" ⟨none, "B", fun _ => true⟩).1.merge_output_format = some "mp4")
    ∧ (find_ffmpeg_folder ⟨none, "B", fun _ => false⟩ = none
      ∧ (fmtAlternatives (make_ydl_opts "u" "d" ⟨none, "B", fun _ => false⟩).1.format).all
          (fun a => isSingleStream a && requiresBothTracks a) = true) :=
  ⟨⟨by decide,
    (format_never_video_only "u" "d" ⟨none, "B", fun _ => true⟩).2.1 (by decide)⟩,
   ⟨by decide,
    (format_never_video_only "u" "d" ⟨none, "B", fun _ => false⟩).2.2 (by decide)⟩⟩

/-- C5: the options carry `ffmpeg_location` exactly when the probe found a
folder (and then exactly that folder), `merge_output_format = "mp4"` holds
iff the probe succeeded, and on probe failure the single note
`"FFmpeg not detected: …"` is emitted while both optional keys are absent. -/
theorem opts_ffmpeg_keys_iff_probe (url out_dir : String) (env : SysEnv) :
    ((make_ydl_opts url out_dir env).1.ffmpeg_location = find_ffmpeg_folder env)
    ∧ ((make_ydl_opts url out_dir env).1.merge_output_format = some "mp4" ↔
        (find_ffmpeg_folder env).isSome = true)
    ∧ (find_ffmpeg_folder env = none →
        (make_ydl_opts url out_dir env).2 =
          ["FFmpeg not detected: using single-file format (sound guaranteed, may be <=720p)."]
        ∧ (make_ydl_opts url out_dir env).1.ffmpeg_location = none
        ∧ (make_ydl_opts url out_dir env).1.merge_output_format = none) := by
  cases hf : find_ffmpeg_folder env with
  | none =>
    refine ⟨?_, ?_, ?_⟩ <;> simp [make_ydl_opts, hf, note_no_ffmpeg]
  | some loc =>
    refine ⟨?_, ?_, ?_⟩ <;> simp [make_ydl_opts, hf]

/-- Witness for C5: a probe that finds nothing, with the note emitted and
both keys absent. -/
theorem opts_ffmpeg_keys_iff_probe_witness :
    (make_ydl_opts "https://youtu.be/abc123" "D" ⟨none, "B", fun _ => false⟩).2 =
        ["FFmpeg not detected: using single-file format (sound guaranteed, may be <=720p)."]
      ∧ (make_ydl_opts "https://youtu.be/abc123" "D" ⟨none, "B", fun _ => false⟩).1.ffmpeg_location
          = none
      ∧ (make_ydl_opts "https://youtu.be/abc123" "D"
            ⟨none, "B", fun _ => false⟩).1.merge_output_format = none :=
  (opts_ffmpeg_keys_iff_probe "https://youtu.be/abc123" "D"
    ⟨none, "B", fun _ => false⟩).2.2 (by decide)

/-- C6: in every reachable state of the download state machine at most one
worker runs, and whenever the trigger button is enabled no worker runs —
the click step disables the button as it spawns, and only the terminal
`ui_done`/`ui_error` handlers re-enable it. -/
theorem at_most_one_download (s : SysState) (h : Reachable s) :
    s.running ≤ 1 ∧ (s.ui.btn_enabled = true → s.running = 0) := by
  induction h with
  | init => exact ⟨by simp [initState], fun _ => rfl⟩
  | step _ hs ih =>
    cases hs with
    | click url out_dir hbtn hu ho =>
      have h0 := ih.2 hbtn
      exact ⟨by simp [h0], by simp⟩
    | clickRejected title msg hbtn =>
      exact ih
    | progressUpd pct msg hr =>
      exact ih
    | noteUpd msg hr =>
      exact ih
    | finishOk msg hr =>
      have h1 := ih.1
      exact ⟨by simp; omega, by simp [ui_done]; omega⟩
    | finishErr e hr =>
      have h1 := ih.1
      exact ⟨by simp; omega, by simp [ui_error]; omega⟩

/-- Witness for C6: the invariant at the initial state. -/
theorem at_most_one_download_witness :
    initState.running ≤ 1 ∧ (initState.ui.btn_enabled = true → initState.running = 0) :=
  at_most_one_download initState Reachable.init

/-- C7: `start_download` spawns a worker iff the stripped URL passes the
YouTube validator and the stripped output folder is non-empty; each failed
check yields exactly one modal error and nothing else; on success the
output directory is created before the worker is spawned. -/
theorem start_download_validates (url_raw out_raw : String) :
    ((∃ u o, Eff.spawnWorker u o ∈ start_download url_raw out_raw) ↔
      (is_youtube_url (pyStrip url_raw) = true ∧ pyStrip out_raw ≠ ""))
    ∧ (is_youtube_url (pyStrip url_raw) = false →
        start_download url_raw out_raw =
          [.showError "Invalid input" "Please paste a valid YouTube URL."])
    ∧ (is_youtube_url (pyStrip url_raw) = true → pyStrip out_raw = "" →
        start_download url_raw out_raw =
          [.showError "Invalid input" "Please choose an output folder."])
    ∧ (is_youtube_url (pyStrip url_raw) = true → pyStrip out_raw ≠ "" →
        start_download url_raw out_raw =
          [.mkdir (pyStrip out_raw), .disableBtn, .setProgress 0,
           .setStatus "Starting…", .setNote "",
           .spawnWorker (pyStrip url_raw) (pyStrip out_raw)]) := by
  by_cases hu : is_youtube_url (pyStrip url_raw) = true
  · by_cases ho : pyStrip out_raw = ""
    · refine ⟨?_, ?_, fun _ _ => ?_, fun _ hno => absurd ho hno⟩ <;>
        simp [start_download, hu, ho]
    · refine ⟨?_, ?_, fun _ hoe => absurd hoe ho, fun _ _ => ?_⟩ <;>
        simp [start_download, hu, ho]
  · refine ⟨?_, fun _ => ?_, fun hyes => absurd hyes hu, fun hyes => absurd hyes hu⟩ <;>
      simp [start_download, hu]

/-- Witness for C7: a concrete valid click, with the directory creation
preceding the spawn in the effect trace. -/
theorem start_download_validates_witness :
    start_download " https://youtu.be/abc123 " "D" =
      [.mkdir "D", .disableBtn, .setProgress 0, .setStatus "Starting…",
       .setNote "", .spawnWorker "https://youtu.be/abc123" "D"] := by
  have h := (start_download_validates " https://youtu.be/abc123 " "D").2.2.2
    (by decide) (by decide)
  simpa using h

/-- C8: a `"downloading"` event with `downloaded_bytes = 50` and
`total_bytes = 200` is reported as exactly 25 percent, and in general the
hook reports `downloaded / total * 100` whenever a positive total is
known. -/
theorem progress_hook_pct_spec :
    progress_hook ev50of200 = some 25
    ∧ ∀ d : ProgressEvent, d.status = some "downloading" → 0 < eventTotal d →
        progress_hook d = some (eventDownloaded d / eventTotal d * 100) := by
  constructor
  · simp [progress_hook, ev50of200, eventTotal, eventDownloaded, pyOr]
    norm_num
  · intro d hs ht
    simp [progress_hook, hs, ne_of_gt ht]

/-- Witness for C8: the general percent formula applied to a concrete
event with downloaded 30 of total 60. -/
theorem progress_hook_pct_spec_witness :
    (0 : ℚ) < eventTotal ev30of60 ∧ progress_hook ev30of60 = some 50 := by
  have h1 : (0 : ℚ) < eventTotal ev30of60 := by
    norm_num [ev30of60, eventTotal, pyOr]
  refine ⟨h1, ?_⟩
  have h := progress_hook_pct_spec.2 ev30of60 rfl h1
  rw [h]
  norm_num [ev30of60, eventTotal, eventDownloaded, pyOr]

/-- C9: when both totals are missing or zero on a `"downloading"` event the
hook reports 0 percent through the guarded branch, never dividing. -/
theorem progress_hook_zero_total (d : ProgressEvent)
    (hs : d.status = some "downloading")
    (h1 : d.total_bytes = none ∨ d.total_bytes = some 0)
    (h2 : d.total_bytes_estimate = none ∨ d.total_bytes_estimate = some 0) :
    progress_hook d = some 0 := by
  have ht : eventTotal d = 0 := by
    rcases h1 with h1 | h1 <;> rcases h2 with h2 | h2 <;>
      simp [eventTotal, pyOr, h1, h2]
  simp [progress_hook, hs, ht]

/-- Witness for C9: a concrete event with `total_bytes = 0` and the
estimate missing. -/
theorem progress_hook_zero_total_witness :
    progress_hook evZeroTotal = some 0 :=
  progress_hook_zero_total evZeroTotal rfl (Or.inr rfl) (Or.inl rfl)

end YtDl
